import Mathlib

/-!
Verification development for the SUNRISE Runtime Manager session core.

The definitions below are a shallow embedding of the Python sources
(`runtime_manager/src/session.py`, `system.py`, `parameters.py` and
`dataformats/dataformats.py`).  Python dictionaries are modelled as
association lists in insertion order, machine floats are modelled as exact
rationals (all comparisons the code performs are order comparisons on
literal values), fallible code returns `Except`, and filesystem / network
effects are passed in as explicit oracle functions.
-/

deriving instance DecidableEq for Except

namespace Sunrise

/-- States of a session, from `dataformats.State` (a Python `str` enum). -/
inductive State
  | CREATED
  | BUILDING
  | BUILT
  | FAILED_BUILD
  | RUNNING
  | RAN
  | FAILED_RUN
deriving DecidableEq, Repr, Fintype

/-- The underlying string value of each `dataformats.State` member. -/
def State.pyValue : State → String
  | .CREATED => "created"
  | .BUILDING => "building"
  | .BUILT => "built"
  | .FAILED_BUILD => "failed build"
  | .RUNNING => "running"
  | .RAN => "ran"
  | .FAILED_RUN => "failed run"

/-- Parameter groups, from `dataformats.ParameterGroup` (a Python `str` enum). -/
inductive ParameterGroup
  | COMMON
  | BUILD
  | RUN
deriving DecidableEq, Repr, Fintype

/-- The underlying string value of each `dataformats.ParameterGroup` member. -/
def ParameterGroup.pyValue : ParameterGroup → String
  | .COMMON => "common_parameters"
  | .BUILD => "build_parameters"
  | .RUN => "run_parameters"

/-- The `ParameterGroup(...)` enum constructor: maps a string to the member
with that value, or fails (Python raises `ValueError`). -/
def ParameterGroup.fromPyValue? (s : String) : Option ParameterGroup :=
  if s = "common_parameters" then some .COMMON
  else if s = "build_parameters" then some .BUILD
  else if s = "run_parameters" then some .RUN
  else none

/-- The two commands accepted by `Session.execute`. -/
inductive Command
  | build
  | run
deriving DecidableEq, Repr, Fintype

/-- Python exceptions raised by the embedded code paths. -/
inductive PyErr
  | unexpectedSessionState (msg : String)
  | lockedSessionError
  | valueError (msg : String)
  | nameError (msg : String)
  | typeError (msg : String)
  | fileNotFoundError (msg : String)
  | attributeError (msg : String)
  | keyError (msg : String)
  | indexError (msg : String)
deriving DecidableEq, Repr

/-- Embedding of `Session.__execute_precondition_check` (session.py lines
177-189).  The Python method loads the session by id; its decision depends
only on the session state and on `system.has_build`, which are the
arguments here. -/
def executePreconditionCheck (has_build : Bool) (state : State) (command : Command) :
    Except PyErr Unit :=
  if state = State.BUILDING ∨ state = State.RUNNING then
    .error (.unexpectedSessionState "Cannot execute as session is already building or running")
  else if command = Command.run ∧ has_build ∧
      ¬(state = State.BUILT ∨ state = State.RAN ∨ state = State.FAILED_RUN) then
    .error (.unexpectedSessionState "Cannot execute run as session state is not built or ran")
  else
    .ok ()

/-- Embedding of `Session.__update_state_after_param_change` (session.py
lines 111-125): the session-state regression applied after a parameter of
the given group has been mutated. -/
def updateStateAfterParamChange (has_build : Bool) (changed_param_group : ParameterGroup)
    (state : State) : State :=
  match changed_param_group with
  | .COMMON | .BUILD =>
    if state = State.BUILT ∨ state = State.FAILED_BUILD ∨
        state = State.RAN ∨ state = State.FAILED_RUN then
      if has_build then State.CREATED else State.BUILT
    else state
  | .RUN =>
    if state = State.RAN ∨ state = State.FAILED_RUN then State.BUILT else state

/-- Recognizer for results of the precondition check that are an
`UnexpectedSessionState` error. -/
def isUnexpectedStateError : Except PyErr Unit → Bool
  | .error (.unexpectedSessionState _) => true
  | _ => false

/-- Claim C1: the precondition check of `Session.execute` fails for the
build command exactly when the session is BUILDING or RUNNING; it fails
for the run command exactly when the session is BUILDING or RUNNING or,
for a system with a build command, when the state is not one of BUILT,
RAN, FAILED_RUN; in all other states it passes. -/
theorem execute_precondition_characterization :
    ∀ (has_build : Bool) (state : State),
      (executePreconditionCheck has_build state Command.build = .ok () ↔
        ¬(state = State.BUILDING ∨ state = State.RUNNING)) ∧
      (executePreconditionCheck has_build state Command.run = .ok () ↔
        (¬(state = State.BUILDING ∨ state = State.RUNNING) ∧
          (has_build = true →
            (state = State.BUILT ∨ state = State.RAN ∨ state = State.FAILED_RUN)))) ∧
      (∀ command, executePreconditionCheck has_build state command ≠ .ok () →
        isUnexpectedStateError (executePreconditionCheck has_build state command) = true) := by
  decide

/-- Witness for claim C1 at concrete inputs: with a build command, the run
command passes the check in state BUILT, is rejected in state CREATED, and
the build command is rejected in state RUNNING with an
UnexpectedSessionState error. -/
theorem execute_precondition_characterization_witness :
    (executePreconditionCheck true State.BUILT Command.run = .ok ()) ∧
    (executePreconditionCheck true State.CREATED Command.run ≠ .ok ()) ∧
    isUnexpectedStateError (executePreconditionCheck true State.RUNNING Command.build) = true := by
  refine ⟨?_, ?_, ?_⟩
  · exact (execute_precondition_characterization true State.BUILT).2.1.2
      ⟨by decide, fun _ => Or.inl rfl⟩
  · intro hok
    have h := (execute_precondition_characterization true State.CREATED).2.1.1 hok
    exact absurd (h.2 rfl) (by decide)
  · exact (execute_precondition_characterization true State.RUNNING).2.2
      Command.build (by decide)

/-- Claim C2: mutating a common or build parameter while the state is
BUILT, FAILED_BUILD, RAN or FAILED_RUN regresses the state to CREATED
when the system has a build command and to BUILT otherwise; mutating a
run parameter while the state is RAN or FAILED_RUN regresses it to BUILT;
any other combination leaves the state unchanged. -/
theorem update_state_after_param_change_characterization :
    ∀ (has_build : Bool) (group : ParameterGroup) (state : State),
      updateStateAfterParamChange has_build group state =
        if (group = ParameterGroup.COMMON ∨ group = ParameterGroup.BUILD) ∧
            (state = State.BUILT ∨ state = State.FAILED_BUILD ∨
              state = State.RAN ∨ state = State.FAILED_RUN) then
          (if has_build then State.CREATED else State.BUILT)
        else if group = ParameterGroup.RUN ∧
            (state = State.RAN ∨ state = State.FAILED_RUN) then
          State.BUILT
        else state := by
  decide

/-! ## Document values (dataformats.py) -/

/-- Python primitive values as they occur in SysDef / SysCfg documents and
in resolved parameters.  Machine floats are modelled as exact rationals:
every float the code compares is a document literal and the code performs
only order comparisons on them. -/
inductive PyVal
  | str (s : String)
  | bool (b : Bool)
  | int (n : Int)
  | float (q : ℚ)
deriving DecidableEq, Repr

/-- The numeric reading of a Python value, when it has one.  In Python,
`bool` is a subclass of `int` with `True == 1` and `False == 0`. -/
def PyVal.asNum? : PyVal → Option ℚ
  | .bool b => some (if b then 1 else 0)
  | .int n => some (n : ℚ)
  | .float q => some q
  | .str _ => none

/-- Python equality on document values: numbers (bool included) compare
numerically across types, strings compare by content, a string never
equals a number. -/
def pyEq (a b : PyVal) : Bool :=
  match a.asNum?, b.asNum? with
  | some x, some y => x == y
  | _, _ =>
    match a, b with
    | .str s, .str t => s == t
    | _, _ => false

/-- The `values` list of `SysDefParameterEnum`: pydantic parses it as one
of the four homogeneous list types of the `Union`. -/
inductive EnumValues
  | strs (l : List String)
  | bools (l : List Bool)
  | ints (l : List Int)
  | floats (l : List ℚ)
deriving DecidableEq, Repr

/-- The enum values as a list of Python values. -/
def EnumValues.toList : EnumValues → List PyVal
  | .strs l => l.map .str
  | .bools l => l.map .bool
  | .ints l => l.map .int
  | .floats l => l.map .float

/-- Python `isinstance(v, type(values[0]))` for a nonempty enum list: the
element type is determined by the homogeneous list; a `bool` value is also
an instance of `int` (bool is a subclass of int in Python). -/
def EnumValues.isinstanceElem (vs : EnumValues) (v : PyVal) : Bool :=
  match vs, v with
  | .strs _, .str _ => true
  | .bools _, .bool _ => true
  | .ints _, .int _ => true
  | .ints _, .bool _ => true
  | .floats _, .float _ => true
  | _, _ => false

/-- Constraint metadata of a complex SysDef parameter: `SysDefParameterEnum`,
`SysDefParameterRange` (bounds are ints or floats, both exact here) or
`SysDefParameterFile`. -/
inductive SysDefMeta
  | enum (values : EnumValues)
  | range (lower upper : ℚ)
  | file (is_file : Bool)
deriving DecidableEq, Repr

/-- Embedding of `dataformats.SysDefCmplxParameter` (dataformats.py lines
65-91). -/
structure SysDefCmplxParameter where
  default_value : PyVal
  meta : Option SysDefMeta := none
  description : Option String := none
deriving DecidableEq, Repr

/-- Embedding of `SysDefCmplxParameter.check_default_value` (dataformats.py
lines 75-91), the pydantic model validator that runs while the definition
document is parsed.  The Python code reads `type(self.meta.values[0])`, so
an empty enum list raises IndexError there (also a parse-time failure). -/
def check_default_value (p : SysDefCmplxParameter) : Except PyErr SysDefCmplxParameter :=
  match p.meta with
  | some (.enum vs) =>
    if vs.toList.isEmpty then
      .error (.indexError "list index out of range")
    else if ¬ vs.isinstanceElem p.default_value then
      .error (.valueError "Default value of enum-parameter has unexpected type")
    else if ¬ (vs.toList.any (fun v => pyEq p.default_value v)) then
      .error (.valueError "Unexpected default value of enum-parameter")
    else
      .ok p
  | some (.range lower upper) =>
    match p.default_value.asNum? with
    | none => .error (.valueError "Default value of range-parameter has unexpected type")
    | some x =>
      if lower ≤ x ∧ x ≤ upper then .ok p
      else .error (.valueError "Default value of range-parameter is not inside boundaries")
  | some (.file _) =>
    match p.default_value with
    | .str _ => .ok p
    | _ => .error (.valueError "Default value of file-parameter is not a string")
  | none => .ok p

/-- Strict primitive-type agreement between a default value and the enum
values, as Claim C5 words it ("the same primitive type as the enum
values"): a boolean is not an integer here.  This is the claim-side
reading, to be compared with the isinstance semantics of the source. -/
def claimSamePrimitiveType (v : PyVal) (vs : EnumValues) : Bool :=
  match vs, v with
  | .strs _, .str _ => true
  | .bools _, .bool _ => true
  | .ints _, .int _ => true
  | .floats _, .float _ => true
  | _, _ => false

/-- Boolean success recognizer for embedded fallible code. -/
def exceptIsOk {α : Type} : Except PyErr α → Bool
  | .ok _ => true
  | .error _ => false

/-- Claim C5 counterexample: a complex parameter whose default value is the
boolean true and whose enum values are the integers 1 and 0 passes
`check_default_value` (Python evaluates `isinstance(True, int)` to true and
`True in [1, 0]` to true, since bool is a subclass of int), although the
default does not have the same primitive type as the enum values. -/
theorem check_default_value_bool_int_counterexample :
    check_default_value { default_value := .bool true, meta := some (.enum (.ints [1, 0])) } =
      .ok { default_value := .bool true, meta := some (.enum (.ints [1, 0])) } ∧
    claimSamePrimitiveType (.bool true) (.ints [1, 0]) = false := by
  decide

/-- Claim C5 (amended): for a complex definition parameter carrying enum
metadata, parse-time validation succeeds exactly when the enum list is
nonempty, the default value is an instance of the element
type in the Python isinstance sense (a boolean default also satisfies an
integer enum), and the default equals some member under Python equality
(true equals 1, false equals 0); for a parameter carrying a numeric range,
validation succeeds exactly when the default has a numeric reading (int,
float or bool) lying within the closed interval from lower to upper.  The
check is the pydantic model validator, so violations surface while the
definition document is parsed, never at use time. -/
theorem check_default_value_characterization :
    ∀ (dv : PyVal) (vs : EnumValues) (lower upper : ℚ) (descr : Option String),
      (exceptIsOk (check_default_value
          { default_value := dv, meta := some (.enum vs), description := descr }) = true ↔
        (vs.toList.isEmpty = false ∧ vs.isinstanceElem dv = true ∧
          vs.toList.any (fun v => pyEq dv v) = true)) ∧
      (exceptIsOk (check_default_value
          { default_value := dv, meta := some (.range lower upper), description := descr }) = true ↔
        (∃ x, dv.asNum? = some x ∧ lower ≤ x ∧ x ≤ upper)) := by
  intro dv vs lower upper descr
  constructor
  · simp only [check_default_value]
    split_ifs with h1 h2 h3 <;>
      simp_all [exceptIsOk]
  · simp only [check_default_value]
    cases h : dv.asNum? with
    | none => simp [exceptIsOk, h]
    | some x =>
      simp only [h]
      split_ifs with hb <;> simp [exceptIsOk, hb]

/-! ## Runtime parameters (parameters.py) -/

/-- Values held by a resolved parameter or by a SysCfg entry: a primitive,
a `SysCfgUrlParameter` object (url plus optional credentials), Python
None, or - transiently, while `Parameter.__init__` runs on a
non-overwritten complex definition entry - the complex definition object
itself (the constructor immediately replaces it by the default value). -/
inductive Value
  | prim (v : PyVal)
  | url (u : String) (credentials : Option String)
  | cmplxObj (c : SysDefCmplxParameter)
  | null
deriving DecidableEq, Repr

/-- File-staging states, from `parameters.FileState`. -/
inductive FileState
  | DEFAULT
  | PENDING
  | STAGED
  | AVAILABLE
deriving DecidableEq, Repr

/-- Embedding of `parameters.FileData` (parameters.py lines 37-47).  The
Python dataclass fields start out as None, hence the Option types;
`credentials` holds the ascii bytes of the credential string. -/
structure FileData where
  file_name : Option String := none
  file_state : Option FileState := none
  file_path_default : PyVal
  file_path_origin : Option PyVal := none
  file_path_local : Option String := none
  file_path_container : Option PyVal := none
  credentials : Option String := none
deriving DecidableEq, Repr

/-- Embedding of `parameters.Parameter` instance attributes (parameters.py
lines 49-73). -/
structure Parameter where
  name : String
  value : Value
  overwritten : Bool
  meta_data : Option SysDefMeta := none
  file_data : Option FileData := none
  default_value : Value
deriving DecidableEq, Repr

/-- A SysDef parameter-group entry: a primitive, a complex parameter
object, or null (dataformats.py lines 119-124). -/
inductive DefEntry
  | prim (v : PyVal)
  | cmplx (c : SysDefCmplxParameter)
  | null
deriving DecidableEq, Repr

/-- Embedding of `Parameter.__parse_file_parameter` (parameters.py lines
75-114), which runs inside the constructor when the complex parameter has
`SysDefParameterFile` metadata.  The `is_file` entry arrives from pydantic
as a real bool, so the non-boolean error branch of the Python code is
unreachable; an `is_file` of false leaves the parameter untouched. -/
def parseFileParameter (p : Parameter) (is_file : Bool) (sysdef_param_path_value : PyVal) :
    Parameter :=
  if is_file then
    let fd0 : FileData := { file_path_default := sysdef_param_path_value }
    let p1 := { p with default_value := Value.prim sysdef_param_path_value }
    if p1.overwritten then
      let fd1 :=
        match p1.value with
        | .url u cred =>
          { fd0 with file_path_origin := some (.str u), credentials := cred,
                     file_state := some .PENDING }
        | .prim v => { fd0 with file_path_origin := some v, file_state := some .PENDING }
        | _ => { fd0 with file_state := some .PENDING }
      { p1 with file_data := some fd1 }
    else
      let fdd := { fd0 with file_path_container := some sysdef_param_path_value,
                            file_state := some .DEFAULT }
      { p1 with file_data := some fdd }
  else p

/-- Embedding of `Parameter.__init__` (parameters.py lines 52-73). -/
def Parameter.init (name : String) (value : Value) (sysdef_param_value : DefEntry)
    (overwritten : Bool) : Parameter :=
  match sysdef_param_value with
  | .cmplx c =>
    let p : Parameter :=
      { name, overwritten,
        value := if overwritten then value else Value.prim c.default_value,
        meta_data := c.meta,
        default_value := Value.prim c.default_value }
    match c.meta with
    | some (.file b) => parseFileParameter p b c.default_value
    | _ => p
  | .prim v => { name, value, overwritten, default_value := Value.prim v }
  | .null => { name, value, overwritten, default_value := Value.null }

/-- ASCII lowercase conversion of one character, as Python `str.lower`
performs it on the ASCII range. -/
def asciiLowerChar (c : Char) : Char :=
  if 65 ≤ c.toNat ∧ c.toNat ≤ 90 then Char.ofNat (c.toNat + 32) else c

/-- Python `str.lower` (the strings compared by the code are ASCII). -/
def pyLower (s : String) : String := String.mk (s.toList.map asciiLowerChar)

/-- Embedding of `Parameter.update_parameter` (parameters.py lines 241-255).
When the current value is a boolean and the new value is neither a boolean
nor a string, Python hits `new_value.lower()` and raises AttributeError. -/
def update_parameter (p : Parameter) (new_value : Value) : Except PyErr Parameter :=
  match p.value with
  | .prim (.bool _) =>
    match new_value with
    | .prim (.bool b) => .ok { p with value := .prim (.bool b) }
    | .prim (.str s) => .ok { p with value := .prim (.bool (pyLower s == "true")) }
    | _ => .error (.attributeError "object has no attribute lower")
  | _ => .ok { p with value := new_value }

/-- Embedding of `Parameter.reset` (parameters.py lines 154-168).  The
`os.remove` of a locally staged file is an external filesystem effect; the
in-memory fields are modelled. -/
def Parameter.reset (p : Parameter) : Parameter :=
  match p.file_data with
  | some fd =>
    let fd2 := { fd with file_path_container := some fd.file_path_default,
                         file_state := some FileState.DEFAULT,
                         credentials := none,
                         file_name := none,
                         file_path_origin := none,
                         file_path_local := none }
    { p with file_data := some fd2 }
  | none => { p with value := p.default_value }

/-- Claim C8: `reset` is idempotent, the value of a non-file parameter
returns to its recorded default (the value field of a file parameter is
untouched), and
a file parameter returns to the DEFAULT file state with name, origin,
local path and credentials discarded and the container path restored to
the definition default. -/
theorem reset_idempotent_restores_default :
    ∀ p : Parameter,
      Parameter.reset (Parameter.reset p) = Parameter.reset p ∧
      (Parameter.reset p).value =
        (match p.file_data with
         | none => p.default_value
         | some _ => p.value) ∧
      (Parameter.reset p).file_data = p.file_data.map (fun fd =>
        { fd with file_path_container := some fd.file_path_default,
                  file_state := some FileState.DEFAULT,
                  credentials := none,
                  file_name := none,
                  file_path_origin := none,
                  file_path_local := none }) := by
  intro p
  obtain ⟨name, value, ow, md, fd, dv⟩ := p
  cases fd <;> simp [Parameter.reset]

/-- Claim C10: updating a parameter whose current value is a boolean takes
a boolean new value as-is and coerces a string new value to true exactly
when its lowercase form is the word true (any other string, such as yes or
1, yields false); for a parameter whose current value is not a boolean the
new value is stored verbatim, with no type or constraint checking. -/
theorem update_parameter_characterization (p : Parameter) :
    ((∃ b0, p.value = .prim (.bool b0)) →
      (∀ b, update_parameter p (.prim (.bool b)) = .ok { p with value := .prim (.bool b) }) ∧
      (∀ s, update_parameter p (.prim (.str s)) =
        .ok { p with value := .prim (.bool (pyLower s == "true")) })) ∧
    ((∀ b0, p.value ≠ .prim (.bool b0)) →
      ∀ v, update_parameter p v = .ok { p with value := v }) := by
  constructor
  · rintro ⟨b0, hb⟩
    constructor
    · intro b; simp [update_parameter, hb]
    · intro s; simp [update_parameter, hb]
  · intro hnb v
    unfold update_parameter
    match hv : p.value with
    | .prim (.bool b0) => exact absurd hv (hnb b0)
    | .prim (.str _) => rfl
    | .prim (.int _) => rfl
    | .prim (.float _) => rfl
    | .url _ _ => rfl
    | .cmplxObj _ => rfl
    | .null => rfl

/-- Witness for claim C10 at a concrete parameter: a boolean-valued
parameter maps the string Yes to false and the string TRUE to true, and an
integer-valued parameter stores the string 7 verbatim. -/
theorem update_parameter_characterization_witness :
    (update_parameter
        { name := "trace", value := .prim (.bool false), overwritten := false,
          default_value := .prim (.bool false) } (.prim (.str "Yes")) =
      .ok { name := "trace", value := .prim (.bool false), overwritten := false,
            default_value := .prim (.bool false) }) ∧
    (update_parameter
        { name := "trace", value := .prim (.bool false), overwritten := false,
          default_value := .prim (.bool false) } (.prim (.str "TRUE")) =
      .ok { name := "trace", value := .prim (.bool true), overwritten := false,
            default_value := .prim (.bool false) }) ∧
    (update_parameter
        { name := "n", value := .prim (.int 3), overwritten := false,
          default_value := .prim (.int 3) } (.prim (.str "7")) =
      .ok { name := "n", value := .prim (.str "7"), overwritten := false,
            default_value := .prim (.int 3) }) := by
  refine ⟨?_, ?_, ?_⟩
  · have h := ((update_parameter_characterization
      { name := "trace", value := .prim (.bool false), overwritten := false,
        default_value := .prim (.bool false) }).1 ⟨false, rfl⟩).2 "Yes"
    rw [show (pyLower "Yes" == "true") = false from by decide] at h
    exact h
  · have h := ((update_parameter_characterization
      { name := "trace", value := .prim (.bool false), overwritten := false,
        default_value := .prim (.bool false) }).1 ⟨false, rfl⟩).2 "TRUE"
    rw [show (pyLower "TRUE" == "true") = true from by decide] at h
    exact h
  · exact (update_parameter_characterization
      { name := "n", value := .prim (.int 3), overwritten := false,
        default_value := .prim (.int 3) }).2 (by intro b0 h; cases h) (.prim (.str "7"))

/-! ## Parameter-group resolution (system.py) -/

/-- Lookup in a Python dict modelled as an association list in insertion
order. -/
def lookupA {α : Type} : List (String × α) → String → Option α
  | [], _ => none
  | kv :: rest, k => if kv.1 == k then some kv.2 else lookupA rest k

/-- The SysCfg-key check of `System.__parse_parameter_group` (system.py
lines 179-184): every SysCfg parameter name must exist in the SysDef
group. -/
def checkCfgKeys (sysdef_parameters : List (String × DefEntry)) :
    List (String × Value) → Except PyErr Unit
  | [] => .ok ()
  | (param_name, _) :: rest =>
    if (lookupA sysdef_parameters param_name).isNone then
      .error (.valueError "Cannot find parameter of SysCfg file in SysDef file")
    else checkCfgKeys sysdef_parameters rest

/-- The non-null configuration override for a definition entry, if any:
`syscfg_parameters is not None and name in syscfg_parameters and
syscfg_parameters[name] is not None` (system.py lines 203-204). -/
def effectiveOverride (cfg : List (String × Value)) (param_name : String) : Option Value :=
  match lookupA cfg param_name with
  | some v => if v = Value.null then none else some v
  | none => none

/-- The raw SysDef entry as the `value` argument handed to the `Parameter`
constructor when no override applies (system.py line 208 passes the
definition entry itself). -/
def defEntryAsValue : DefEntry → Value
  | .prim v => .prim v
  | .cmplx c => .cmplxObj c
  | .null => .null

/-- The definition-side default of an entry: the declared default value
of a complex entry, a plain entry itself. -/
def defEntryDefault : DefEntry → Value
  | .prim v => .prim v
  | .cmplx c => .prim c.default_value
  | .null => .null

/-- The construction loop of `System.__parse_parameter_group` (system.py
lines 189-212), carrying the list of already-seen parameter names for the
duplicate-name check. -/
def buildParams (syscfg_parameters : Option (List (String × Value))) (seen : List String) :
    List (String × DefEntry) → Except PyErr (List Parameter)
  | [] => .ok []
  | (param_name, sysdef_param_value) :: rest =>
    if seen.contains param_name then
      .error (.valueError "Parameter is multiple times defined")
    else
      let ov := match syscfg_parameters with
        | some cfg => effectiveOverride cfg param_name
        | none => none
      let pv := match ov with
        | some v => v
        | none => defEntryAsValue sysdef_param_value
      let parameter := Parameter.init param_name pv sysdef_param_value ov.isSome
      match buildParams syscfg_parameters (param_name :: seen) rest with
      | .ok restP => .ok (parameter :: restP)
      | .error e => .error e

/-- Embedding of `System.__parse_parameter_group` (system.py lines
166-212). -/
def parseParameterGroup (sysdef_parameters : Option (List (String × DefEntry)))
    (syscfg_parameters : Option (List (String × Value))) : Except PyErr (List Parameter) :=
  let keysCheck : Except PyErr Unit :=
    match syscfg_parameters, sysdef_parameters with
    | some cfg, none =>
      if cfg.length > 0 then
        .error (.valueError "Cannot find parameter group of SysCfg file in SysDef file")
      else .ok ()
    | some cfg, some sd => checkCfgKeys sd cfg
    | none, _ => .ok ()
  match keysCheck with
  | .error e => .error e
  | .ok _ =>
    match sysdef_parameters with
    | none => .ok []
    | some sd => buildParams syscfg_parameters [] sd

theorem parseFileParameter_fields (p : Parameter) (b : Bool) (path : PyVal) :
    (parseFileParameter p b path).name = p.name ∧
    (parseFileParameter p b path).overwritten = p.overwritten ∧
    (parseFileParameter p b path).value = p.value := by
  by_cases hb : b = true <;> by_cases ho : p.overwritten = true <;>
    simp [parseFileParameter, hb, ho]

theorem Parameter.init_fields_over (n : String) (v : Value) (de : DefEntry) :
    (Parameter.init n v de true).name = n ∧
    (Parameter.init n v de true).overwritten = true ∧
    (Parameter.init n v de true).value = v := by
  cases de with
  | prim w => simp [Parameter.init]
  | null => simp [Parameter.init]
  | cmplx c =>
    cases hm : c.meta with
    | none => simp [Parameter.init, hm]
    | some m =>
      cases m with
      | enum vs => simp [Parameter.init, hm]
      | range lo hi => simp [Parameter.init, hm]
      | file b =>
        have h := parseFileParameter_fields
          { name := n, overwritten := true, value := v,
            meta_data := c.meta,
            default_value := Value.prim c.default_value } b c.default_value
        simp only [hm] at h
        simpa [Parameter.init, hm] using h

theorem Parameter.init_fields_default (n : String) (de : DefEntry) :
    (Parameter.init n (defEntryAsValue de) de false).name = n ∧
    (Parameter.init n (defEntryAsValue de) de false).overwritten = false ∧
    (Parameter.init n (defEntryAsValue de) de false).value = defEntryDefault de := by
  cases de with
  | prim w => simp [Parameter.init, defEntryAsValue, defEntryDefault]
  | null => simp [Parameter.init, defEntryAsValue, defEntryDefault]
  | cmplx c =>
    cases hm : c.meta with
    | none => simp [Parameter.init, defEntryAsValue, defEntryDefault, hm]
    | some m =>
      cases m with
      | enum vs => simp [Parameter.init, defEntryAsValue, defEntryDefault, hm]
      | range lo hi => simp [Parameter.init, defEntryAsValue, defEntryDefault, hm]
      | file b =>
        have h := parseFileParameter_fields
          { name := n, overwritten := false, value := Value.prim c.default_value,
            meta_data := c.meta,
            default_value := Value.prim c.default_value } b c.default_value
        simp only [hm] at h
        simpa [Parameter.init, defEntryAsValue, defEntryDefault, hm] using h

theorem lookupA_isNone_iff {α : Type} (l : List (String × α)) (k : String) :
    (lookupA l k).isNone = true ↔ k ∉ l.map Prod.fst := by
  induction l with
  | nil => simp [lookupA]
  | cons hd tl ih =>
    obtain ⟨k1, v1⟩ := hd
    by_cases hk : k1 = k
    · subst hk
      simp [lookupA]
    · have hbeq : (k1 == k) = false := by simpa using hk
      simp [lookupA, hbeq, ih, Ne.symm hk]

theorem checkCfgKeys_ok (sd : List (String × DefEntry)) (cfg : List (String × Value))
    (h : ∀ k ∈ cfg.map Prod.fst, k ∈ sd.map Prod.fst) :
    checkCfgKeys sd cfg = .ok () := by
  induction cfg with
  | nil => rfl
  | cons hd tl ih =>
    have hmem : hd.1 ∈ sd.map Prod.fst := h hd.1 (by simp)
    have hfind : (lookupA sd hd.1).isNone = false := by
      rcases h2 : (lookupA sd hd.1).isNone with _ | _
      · rfl
      · exact absurd ((lookupA_isNone_iff sd hd.1).1 h2) (not_not_intro hmem)
    obtain ⟨k1, k2⟩ := hd
    simp only [checkCfgKeys, hfind]
    exact ih (fun k hk => h k (by simp [hk]))

theorem checkCfgKeys_error (sd : List (String × DefEntry)) (cfg : List (String × Value))
    (h : ∃ k ∈ cfg.map Prod.fst, k ∉ sd.map Prod.fst) :
    checkCfgKeys sd cfg =
      .error (.valueError "Cannot find parameter of SysCfg file in SysDef file") := by
  induction cfg with
  | nil => simp at h
  | cons hd tl ih =>
    obtain ⟨k1, k2⟩ := hd
    by_cases hk : (lookupA sd k1).isNone = true
    · simp [checkCfgKeys, hk]
    · have hk1 : k1 ∈ sd.map Prod.fst := by
        by_contra hcon
        exact hk ((lookupA_isNone_iff sd k1).2 hcon)
      simp only [checkCfgKeys, Bool.not_eq_true] at hk ⊢
      rw [hk]
      simp only [Bool.false_eq_true, if_false]
      apply ih
      rcases h with ⟨k, hkmem, hknot⟩
      rcases (by simpa using hkmem : k = k1 ∨ k ∈ tl.map Prod.fst) with h1 | h1
      · exact absurd (h1 ▸ hk1) hknot
      · exact ⟨k, h1, hknot⟩

/-- The parameter produced for one definition entry, as `buildParams`
constructs it. -/
def resolvedParam (cfg? : Option (List (String × Value))) (nd : String × DefEntry) :
    Parameter :=
  let ov := match cfg? with
    | some cfg => effectiveOverride cfg nd.1
    | none => none
  Parameter.init nd.1
    (match ov with | some v => v | none => defEntryAsValue nd.2) nd.2 ov.isSome

theorem buildParams_ok (cfg? : Option (List (String × Value))) :
    ∀ (sd : List (String × DefEntry)) (seen : List String),
      (sd.map Prod.fst).Nodup →
      (∀ k ∈ sd.map Prod.fst, k ∉ seen) →
      buildParams cfg? seen sd = .ok (sd.map (resolvedParam cfg?)) := by
  intro sd
  induction sd with
  | nil => intro seen _ _; rfl
  | cons hd tl ih =>
    intro seen hnodup hseen
    obtain ⟨n, de⟩ := hd
    rw [List.map_cons] at hnodup
    have hcons := List.nodup_cons.1 hnodup
    have hn : seen.contains n = false := by
      simpa using hseen n (by simp)
    have htl : buildParams cfg? (n :: seen) tl = .ok (tl.map (resolvedParam cfg?)) := by
      apply ih
      · exact hcons.2
      · intro k hk
        have hk1 : k ≠ n := by
          intro he; exact hcons.1 (he ▸ hk)
        have hk2 : k ∉ seen := hseen k (by simp [hk])
        simp [hk1, hk2]
    simp only [buildParams, hn, Bool.false_eq_true, if_false, htl, List.map_cons]
    rfl

/-- Claim C4: when every configuration key names an existing definition
entry, group resolution succeeds, the resolved parameters are in
definition order, and each parameter takes the non-null configuration
override as its value with overwritten true, or the definition default
with overwritten false when no non-null override exists; when some
configuration key is absent from the definition group, resolution fails
with a ValueError.  The Nodup hypothesis records that Python dict keys are
unique. -/
theorem parse_parameter_group_resolution
    (sd : List (String × DefEntry)) (cfg : List (String × Value))
    (hnodup : (sd.map Prod.fst).Nodup) :
    ((∀ k ∈ cfg.map Prod.fst, k ∈ sd.map Prod.fst) →
      ∃ ps, parseParameterGroup (some sd) (some cfg) = .ok ps ∧
        ps.map Parameter.name = sd.map Prod.fst ∧
        (∀ nd ∈ sd, ∃ p ∈ ps, p.name = nd.1 ∧
          (∀ v, effectiveOverride cfg nd.1 = some v →
            p.value = v ∧ p.overwritten = true) ∧
          (effectiveOverride cfg nd.1 = none →
            p.value = defEntryDefault nd.2 ∧ p.overwritten = false))) ∧
    ((∃ k ∈ cfg.map Prod.fst, k ∉ sd.map Prod.fst) →
      parseParameterGroup (some sd) (some cfg) =
        .error (.valueError "Cannot find parameter of SysCfg file in SysDef file")) := by
  constructor
  · intro hkeys
    have hchk : checkCfgKeys sd cfg = .ok () := checkCfgKeys_ok sd cfg hkeys
    have hbld := buildParams_ok (some cfg) sd [] hnodup (by simp)
    refine ⟨sd.map (resolvedParam (some cfg)), ?_, ?_, ?_⟩
    · simp [parseParameterGroup, hchk, hbld]
    · simp only [List.map_map]
      apply List.map_congr_left
      intro nd _
      obtain ⟨n, de⟩ := nd
      simp only [Function.comp_apply, resolvedParam]
      cases hov : effectiveOverride cfg n with
      | some v => exact (Parameter.init_fields_over n v de).1
      | none => exact (Parameter.init_fields_default n de).1
    · intro nd hnd
      refine ⟨resolvedParam (some cfg) nd, List.mem_map_of_mem _ hnd, ?_, ?_, ?_⟩
      · obtain ⟨n, de⟩ := nd
        simp only [resolvedParam]
        cases hov : effectiveOverride cfg n with
        | some v => exact (Parameter.init_fields_over n v de).1
        | none => exact (Parameter.init_fields_default n de).1
      · intro v hv
        obtain ⟨n, de⟩ := nd
        simp only [resolvedParam, hv]
        have h := Parameter.init_fields_over n v de
        exact ⟨h.2.2, h.2.1⟩
      · intro hv
        obtain ⟨n, de⟩ := nd
        simp only [resolvedParam, hv]
        have h := Parameter.init_fields_default n de
        exact ⟨h.2.2, h.2.1⟩
  · intro hbad
    have hchk := checkCfgKeys_error sd cfg hbad
    simp [parseParameterGroup, hchk]

/-- Witness for claim C4 at a concrete definition group with a plain, a
complex and a file parameter, and a configuration overriding two of them. -/
theorem parse_parameter_group_resolution_witness :
    ∃ ps, parseParameterGroup
        (some [("cores", DefEntry.prim (.int 4)),
               ("mode", DefEntry.cmplx { default_value := .str "fast" }),
               ("scenario", DefEntry.cmplx
                 { default_value := .str "default.json", meta := some (.file true) })])
        (some [("mode", Value.prim (.str "slow")),
               ("scenario", Value.url "https://host/data.json" (some "tok"))]) = .ok ps ∧
      ps.map Parameter.name = ["cores", "mode", "scenario"] ∧
      (∀ nd ∈ [("cores", DefEntry.prim (.int 4)),
               ("mode", DefEntry.cmplx { default_value := .str "fast" }),
               ("scenario", DefEntry.cmplx
                 { default_value := .str "default.json", meta := some (.file true) })],
        ∃ p ∈ ps, p.name = nd.1 ∧
          (∀ v, effectiveOverride
              [("mode", Value.prim (.str "slow")),
               ("scenario", Value.url "https://host/data.json" (some "tok"))] nd.1 = some v →
            p.value = v ∧ p.overwritten = true) ∧
          (effectiveOverride
              [("mode", Value.prim (.str "slow")),
               ("scenario", Value.url "https://host/data.json" (some "tok"))] nd.1 = none →
            p.value = defEntryDefault nd.2 ∧ p.overwritten = false)) :=
  (parse_parameter_group_resolution _ _ (by decide)).1 (by decide)

/-! ## Session operations (session.py) -/

/-- Base directory for session data (constants.py line 26; the concrete,
environment-dependent value does not affect any claim). -/
def SESSIONS_BASE_DIR : String := "sessions"

/-- Working directory inside the container (constants.py line 29). -/
def CONTAINER_WORKDIR : String := "/sysapi"

/-- `os.path.posixpath.join` on the relative path segments the code uses. -/
def pyJoin (segments : List String) : String := String.intercalate "/" segments

/-- Embedding of `Parameter.process_input_file` (parameters.py lines
116-152): the upload path of the add operation.  Writing the byte content
to disk is an external effect; the in-memory fields are modelled. -/
def process_input_file (session_id : String) (group : ParameterGroup) (file_name : String)
    (p : Parameter) : Except PyErr Parameter :=
  match p.file_data with
  | none =>
    .error (.nameError "Selected parameter is not a file and cannot be uploaded with a file")
  | some fd =>
    if fd.file_path_container = none ∧ fd.file_path_origin = none then
      .error (.valueError "Corrupted parameter: Marked as file parameter but has no valid path")
    else
      let destination_file :=
        pyJoin [SESSIONS_BASE_DIR, session_id, "inputs", group.pyValue, p.name, file_name]
      let target_mounted_dir :=
        pyJoin [CONTAINER_WORKDIR, "inputs", group.pyValue, p.name, file_name]
      let fd2 := { fd with file_name := some file_name,
                           file_state := some FileState.STAGED,
                           file_path_container := some (.str target_mounted_dir),
                           file_path_local := some destination_file }
      .ok { p with file_data := some fd2 }

/-- Embedding of `dataformats.SysDefResult` (dataformats.py lines 94-99);
the result type enum value is kept as its string. -/
structure SysDefResult where
  type : String
  path : String
  enabled_by : Option (List String) := none
  description : Option String := none
deriving DecidableEq, Repr

/-- A value of `System.data.results`: normally a `SysDefResult`; the code
also tolerates a plain path value (the isinstance check in
`Session.get_result_availability` and `Session.get_result`). -/
inductive ResultEntry
  | sysDefResult (r : SysDefResult)
  | rawPath (p : String)
deriving DecidableEq, Repr

/-- The in-memory state of one session that the mutation operations read
and write: the state of the `Session` object, the `has_build` flag of its
system,
the per-group parameter lists of `System.data.parameters` and the result
definitions of `System.data.results`. -/
structure SessionModel where
  session_id : String
  state : State
  has_build : Bool
  common_params : List Parameter
  build_params : List Parameter
  run_params : List Parameter
  results : List (String × ResultEntry) := []
deriving DecidableEq, Repr

/-- The parameter list of one group. -/
def SessionModel.params (s : SessionModel) : ParameterGroup → List Parameter
  | .COMMON => s.common_params
  | .BUILD => s.build_params
  | .RUN => s.run_params

/-- Functional update of the parameter list of one group. -/
def SessionModel.withParams (s : SessionModel) : ParameterGroup → List Parameter → SessionModel
  | .COMMON, l => { s with common_params := l }
  | .BUILD, l => { s with build_params := l }
  | .RUN, l => { s with run_params := l }

/-- Embedding of `System.get_parameter` (system.py lines 362-376): the
first parameter of the group with the given name, else None. -/
def SessionModel.get_parameter (s : SessionModel) (parameter_group : ParameterGroup)
    (parameter_name : String) : Option Parameter :=
  (s.params parameter_group).find? (fun p => p.name == parameter_name)

/-- Replace the first parameter carrying the given name (the Python code
mutates the object returned by `get_parameter` in place). -/
def updateFirst (l : List Parameter) (parameter_name : String)
    (f : Parameter → Parameter) : List Parameter :=
  match l with
  | [] => []
  | p :: rest =>
    if p.name == parameter_name then f p :: rest
    else p :: updateFirst rest parameter_name f

/-- Embedding of `Session.update` (session.py lines 127-141): locked check,
parameter lookup, value update, then the state regression. -/
def Session.update (s : SessionModel) (parameter_group : ParameterGroup)
    (parameter_name : String) (parameter_value : Value) : Except PyErr SessionModel :=
  if s.state = State.BUILDING ∨ s.state = State.RUNNING then
    .error .lockedSessionError
  else
    match s.get_parameter parameter_group parameter_name with
    | some parameter =>
      match update_parameter parameter parameter_value with
      | .error e => .error e
      | .ok p2 =>
        let s2 := s.withParams parameter_group
          (updateFirst (s.params parameter_group) parameter_name (fun _ => p2))
        .ok { s2 with state := updateStateAfterParamChange s2.has_build parameter_group s2.state }
    | none => .error (.valueError "Selected parameter is not part of system definition")

/-- Embedding of `Session.add` (session.py lines 143-160): locked check,
parameter lookup, file upload, then the state regression. -/
def Session.add (s : SessionModel) (parameter_group : ParameterGroup)
    (parameter_name : String) (file_name : String) : Except PyErr SessionModel :=
  if s.state = State.BUILDING ∨ s.state = State.RUNNING then
    .error .lockedSessionError
  else
    match s.get_parameter parameter_group parameter_name with
    | some parameter =>
      match process_input_file s.session_id parameter_group file_name parameter with
      | .error e => .error e
      | .ok p2 =>
        let s2 := s.withParams parameter_group
          (updateFirst (s.params parameter_group) parameter_name (fun _ => p2))
        .ok { s2 with state := updateStateAfterParamChange s2.has_build parameter_group s2.state }
    | none => .error (.valueError "Selected parameter is not part of system definition")

/-- Embedding of `Session.delete` (session.py lines 162-175): parameter
lookup, reset, then the state regression.  Unlike `update` and `add`, the
Python method performs no BUILDING/RUNNING locked check. -/
def Session.delete (s : SessionModel) (parameter_group : ParameterGroup)
    (parameter_name : String) : Except PyErr SessionModel :=
  match s.get_parameter parameter_group parameter_name with
  | some _ =>
    let s2 := s.withParams parameter_group
      (updateFirst (s.params parameter_group) parameter_name Parameter.reset)
    .ok { s2 with state := updateStateAfterParamChange s2.has_build parameter_group s2.state }
  | none => .error (.valueError "Selected parameter is not part of system definition")

/-- A session currently executing its run command, with one plain common
parameter whose value was overridden away from its default. -/
def runningSessionC3 : SessionModel :=
  { session_id := "sid-c3", state := State.RUNNING, has_build := true,
    common_params := [{ name := "cores", value := .prim (.int 8), overwritten := true,
                        default_value := .prim (.int 4) }],
    build_params := [], run_params := [] }

/-- Claim C3 counterexample: while the session is RUNNING, `Session.delete`
does not fail with LockedSessionError; it succeeds and resets the
parameter to its default value. -/
theorem session_delete_while_running_counterexample :
    Session.delete runningSessionC3 ParameterGroup.COMMON "cores" =
      .ok { session_id := "sid-c3", state := State.RUNNING, has_build := true,
            common_params := [{ name := "cores", value := .prim (.int 4), overwritten := true,
                                default_value := .prim (.int 4) }],
            build_params := [], run_params := [] } := by
  decide

/-- Claim C3 (amended): while the session state is BUILDING or RUNNING,
`Session.update` and `Session.add` fail with LockedSessionError and leave
the session unchanged, but `Session.delete` performs no locked check: for
an existing parameter it succeeds, resets that parameter to its default,
and leaves the session state itself unchanged (the regression rule does
not fire in BUILDING or RUNNING); for a missing parameter it fails with a
ValueError. -/
theorem session_mutation_while_locked
    (s : SessionModel) (g : ParameterGroup) (n : String) (v : Value) (fname : String)
    (hlock : s.state = State.BUILDING ∨ s.state = State.RUNNING) :
    Session.update s g n v = .error .lockedSessionError ∧
    Session.add s g n fname = .error .lockedSessionError ∧
    ((s.get_parameter g n).isSome = true →
      Session.delete s g n = .ok (s.withParams g (updateFirst (s.params g) n Parameter.reset)) ∧
      (s.withParams g (updateFirst (s.params g) n Parameter.reset)).state = s.state) ∧
    (s.get_parameter g n = none →
      Session.delete s g n =
        .error (.valueError "Selected parameter is not part of system definition")) := by
  have hupd : Session.update s g n v = .error .lockedSessionError := by
    simp [Session.update, hlock]
  have hadd : Session.add s g n fname = .error .lockedSessionError := by
    simp [Session.add, hlock]
  have hstate : ∀ l, (s.withParams g l).state = s.state := by
    intro l; cases g <;> simp [SessionModel.withParams]
  have hregress : updateStateAfterParamChange s.has_build g s.state = s.state := by
    rcases hlock with h | h <;> rw [h] <;> cases g <;> cases s.has_build <;>
      simp [updateStateAfterParamChange]
  have hhb : ∀ l, (s.withParams g l).has_build = s.has_build := by
    intro l; cases g <;> simp [SessionModel.withParams]
  refine ⟨hupd, hadd, ?_, ?_⟩
  · intro hsome
    rcases hp : s.get_parameter g n with _ | p
    · rw [hp] at hsome; cases hsome
    · constructor
      · simp only [Session.delete, hp]
        have h1 : (s.withParams g (updateFirst (s.params g) n Parameter.reset)).has_build
            = s.has_build := hhb _
        have h2 : (s.withParams g (updateFirst (s.params g) n Parameter.reset)).state
            = s.state := hstate _
        have hregress2 : updateStateAfterParamChange
            (s.withParams g (updateFirst (s.params g) n Parameter.reset)).has_build g s.state
            = s.state := by rw [h1]; exact hregress
        rw [h2, hregress2, ← h2]
      · exact hstate _
  · intro hnone
    simp [Session.delete, hnone]

/-- Witness for the amended claim C3: instantiated at the concrete RUNNING
session, update and add are rejected as locked while delete succeeds. -/
theorem session_mutation_while_locked_witness :
    Session.update runningSessionC3 ParameterGroup.COMMON "cores" (.prim (.int 2)) =
      .error .lockedSessionError ∧
    Session.add runningSessionC3 ParameterGroup.COMMON "cores" "data.bin" =
      .error .lockedSessionError ∧
    ((runningSessionC3.get_parameter ParameterGroup.COMMON "cores").isSome = true →
      Session.delete runningSessionC3 ParameterGroup.COMMON "cores" =
        .ok (runningSessionC3.withParams ParameterGroup.COMMON
          (updateFirst (runningSessionC3.params ParameterGroup.COMMON) "cores"
            Parameter.reset)) ∧
      (runningSessionC3.withParams ParameterGroup.COMMON
        (updateFirst (runningSessionC3.params ParameterGroup.COMMON) "cores"
          Parameter.reset)).state = runningSessionC3.state) ∧
    (runningSessionC3.get_parameter ParameterGroup.COMMON "cores" = none →
      Session.delete runningSessionC3 ParameterGroup.COMMON "cores" =
        .error (.valueError "Selected parameter is not part of system definition")) :=
  session_mutation_while_locked runningSessionC3 ParameterGroup.COMMON "cores"
    (.prim (.int 2)) "data.bin" (Or.inr rfl)

/-! ## File staging (parameters.py, stage_file) -/

/-- A `urllib.request.Request` as the code builds it: the URL and the
headers added via `add_header`. -/
structure UrlRequest where
  url : String
  headers : List (String × String)
deriving DecidableEq, Repr

/-- Helper for Python `str.split` with a single-character separator:
structural recursion over the characters, carrying the reversed current
segment. -/
def splitOnCharAux (sep : Char) : List Char → List Char → List String
  | [], acc => [String.mk acc.reverse]
  | c :: rest, acc =>
    if c = sep then String.mk acc.reverse :: splitOnCharAux sep rest []
    else splitOnCharAux sep rest (c :: acc)

/-- Python `str.split` with a single-character separator. -/
def pySplit (s : String) (sep : Char) : List String := splitOnCharAux sep s.toList []

/-- The last path segment of a URL: `origin.split("/")[-1]`. -/
def lastUrlSegment (s : String) : String := (pySplit s '/').getLastD ""

/-- Embedding of `Parameter.stage_file` (parameters.py lines 170-233).
`isfile` is the filesystem oracle behind `os.path.isfile`; `urlopen` is
the network oracle (`.error` models `urllib.error.HTTPError`, `.ok`
a download whose content is then written to disk, an external effect).
In the local-filesystem branch Python computes
`os.path.join(destination_path, self.file_data.file_name)`, which raises
TypeError whenever `file_name` is None.  A PENDING origin that is not a
string would already crash inside `os.path.isfile`; those origins fall
outside every claim and are likewise modelled as a TypeError. -/
def stage_file (isfile : String → Bool) (urlopen : UrlRequest → Except String String)
    (session_id : String) (group : ParameterGroup) (p : Parameter) :
    Except PyErr Parameter :=
  match p.file_data with
  | none => .ok p
  | some fd =>
    if fd.file_state = some FileState.PENDING then
      match fd.file_path_origin with
      | some (.str origin) =>
        if isfile origin then
          match fd.file_name with
          | none => .error (.typeError "join argument must be str not NoneType")
          | some fname =>
            let destination_file :=
              pyJoin [SESSIONS_BASE_DIR, session_id, "inputs", group.pyValue, p.name, fname]
            let target_mounted_dir :=
              pyJoin [CONTAINER_WORKDIR, "inputs", group.pyValue, p.name, fname]
            let fd2 := { fd with file_path_container := some (.str target_mounted_dir),
                                 file_path_local := some destination_file,
                                 file_state := some FileState.STAGED }
            .ok { p with file_data := some fd2 }
        else if origin.startsWith "http://" || origin.startsWith "https://" ||
            origin.startsWith "ftp://" then
          let request : UrlRequest :=
            { url := origin,
              headers := match fd.credentials with
                | some cred => [("Authorization", "Bearer " ++ cred)]
                | none => [] }
          match urlopen request with
          | .error _ =>
            .error (.fileNotFoundError
              ("Unable to download file from URL for the parameter " ++ p.name))
          | .ok _content =>
            let fname := lastUrlSegment origin
            let destination_file :=
              pyJoin [SESSIONS_BASE_DIR, session_id, "inputs", group.pyValue, p.name, fname]
            let target_mounted_dir :=
              pyJoin [CONTAINER_WORKDIR, "inputs", group.pyValue, p.name, fname]
            let fd2 := { fd with file_name := some fname,
                                 file_path_container := some (.str target_mounted_dir),
                                 file_path_local := some destination_file,
                                 file_state := some FileState.STAGED }
            .ok { p with file_data := some fd2 }
        else
          .error (.fileNotFoundError
            ("Cannot make file parameter " ++ p.name ++
              " available. Use add API call to upload the file."))
      | _ => .error (.typeError "isfile argument is not a string path")
    else
      .ok p

/-- Claim C6 (code bug in the local-path branch): a file parameter whose
configuration override is a path or URL string resolves to the PENDING
file state with no file name recorded; when the origin names an existing
local file (`isfile` answers true), `stage_file` then evaluates
`os.path.join(destination_path, None)` and raises TypeError instead of
copying the file and entering STAGED. -/
theorem stage_file_local_origin_crashes :
    ∀ (urlopen : UrlRequest → Except String String) (session_id : String)
      (group : ParameterGroup) (pname opath dpath : String) (cred : Option String),
      (Parameter.init pname (.url opath cred)
          (.cmplx { default_value := .str dpath, meta := some (.file true) }) true).file_data =
        some { file_name := none, file_state := some FileState.PENDING,
               file_path_default := .str dpath, file_path_origin := some (.str opath),
               file_path_local := none, file_path_container := none, credentials := cred } ∧
      stage_file (fun _ => true) urlopen session_id group
        (Parameter.init pname (.url opath cred)
          (.cmplx { default_value := .str dpath, meta := some (.file true) }) true) =
        .error (.typeError "join argument must be str not NoneType") ∧
      stage_file (fun _ => true) urlopen session_id group
        (Parameter.init pname (.prim (.str opath))
          (.cmplx { default_value := .str dpath, meta := some (.file true) }) true) =
        .error (.typeError "join argument must be str not NoneType") := by
  intro urlopen session_id group pname opath dpath cred
  refine ⟨?_, ?_, ?_⟩ <;> rfl

/-- Supporting fact for claim C6: the URL branch behaves as specified.
For a PENDING parameter whose origin carries a URL scheme and is not a
local file, a successful fetch stages the parameter with the file name
derived from the last URL segment and a bearer header attached exactly
when credentials are present, and a fetch failure raises a not-found
condition naming the parameter while the file state stays PENDING. -/
theorem stage_file_url_branch (session_id : String) (group : ParameterGroup)
    (p : Parameter) (fd : FileData) (origin : String) (content epage : String)
    (hfd : p.file_data = some fd)
    (hst : fd.file_state = some FileState.PENDING)
    (hor : fd.file_path_origin = some (.str origin))
    (hscheme : (origin.startsWith "http://" || origin.startsWith "https://" ||
      origin.startsWith "ftp://") = true) :
    (∀ urlopen : UrlRequest → Except String String,
      (∀ r, urlopen r = .ok content) →
      stage_file (fun _ => false) urlopen session_id group p =
        .ok { p with
          file_data := some ({ fd with
            file_name := some (lastUrlSegment origin),
            file_path_container := some (.str (pyJoin [CONTAINER_WORKDIR, "inputs",
              group.pyValue, p.name, lastUrlSegment origin])),
            file_path_local := some (pyJoin [SESSIONS_BASE_DIR, session_id, "inputs",
              group.pyValue, p.name, lastUrlSegment origin]),
            file_state := some FileState.STAGED }) }) ∧
    (∀ urlopen : UrlRequest → Except String String,
      (∀ r, urlopen r = .error epage) →
      stage_file (fun _ => false) urlopen session_id group p =
        .error (.fileNotFoundError
          ("Unable to download file from URL for the parameter " ++ p.name))) := by
  constructor
  · intro urlopen hok
    simp [stage_file, hfd, hst, hor, hscheme, hok]
  · intro urlopen herr
    simp [stage_file, hfd, hst, hor, hscheme, herr]

/-- Supporting fact for claim C6: an origin that is neither an existing
local file nor carries one of the three URL schemes makes `stage_file`
fail with a not-found condition telling the caller to upload the file,
and the parameter is untouched (its state stays PENDING). -/
theorem stage_file_other_origin (session_id : String) (group : ParameterGroup)
    (p : Parameter) (fd : FileData) (origin : String)
    (urlopen : UrlRequest → Except String String)
    (hfd : p.file_data = some fd)
    (hst : fd.file_state = some FileState.PENDING)
    (hor : fd.file_path_origin = some (.str origin))
    (hscheme : (origin.startsWith "http://" || origin.startsWith "https://" ||
      origin.startsWith "ftp://") = false) :
    stage_file (fun _ => false) urlopen session_id group p =
      .error (.fileNotFoundError
        ("Cannot make file parameter " ++ p.name ++
          " available. Use add API call to upload the file.")) := by
  simp [stage_file, hfd, hst, hor, hscheme]

/-! ## Result availability (session.py, get_result_availability) -/

/-- Python substring membership between strings: the `str.__contains__`
that `self.state not in dataformats.State.RAN` invokes, `State` being a
str enum whose RAN member is the string "ran". -/
def pyStrContains (hay needle : String) : Bool :=
  hay.toList.tails.any (fun t => needle.toList.isPrefixOf t)

/-- The parse of one `enabled_by` entry inside `get_result_availability`
(session.py lines 309-310): `entry.split('/')[-1]` is the parameter name
and `ParameterGroup(entry.split('/')[-2])` the group; a one-segment entry
raises IndexError, an unknown group string ValueError. -/
def parseEnabler (entry : String) : Except PyErr (ParameterGroup × String) :=
  match (pySplit entry '/').reverse with
  | pname :: gstr :: _ =>
    match ParameterGroup.fromPyValue? gstr with
    | some g => .ok (g, pname)
    | none => .error (.valueError "is not a valid ParameterGroup")
  | _ => .error (.indexError "list index out of range")

/-- The state set accepted by the build-group enabler check (session.py
lines 322-323). -/
def buildEnablerStateOk (st : State) : Bool :=
  st == State.BUILT || st == State.RUNNING || st == State.RAN || st == State.FAILED_RUN

/-- Message for an enabling parameter that is not set to true (session.py
lines 314-315). -/
def msgNotTrue (name pname : String) : String :=
  "Result " ++ name ++ " is not available: Required parameter " ++ pname ++
    " is not set to true."

/-- Message for a non-boolean enabling parameter, the definition-validity
failure (session.py lines 318-319). -/
def msgNonBool (name pname : String) : String :=
  "Result " ++ name ++ " cannot be generated: Required parameter " ++ pname ++
    " is not a boolean type. The SysDef is invalid for this result."

/-- Message for a build-group enabler in a state before BUILT (session.py
lines 324-325). -/
def msgNeedBuilt (name : String) (st : State) : String :=
  "Result " ++ name ++ " is not available: Session state is " ++ st.pyValue ++
    " but at least built is required."

/-- Message for a state before RAN (session.py lines 329-330 and
335-336). -/
def msgNeedRan (name : String) (st : State) : String :=
  "Result " ++ name ++ " is not available: Session state is " ++ st.pyValue ++
    " but at least ran is required."

/-- The `enabled_by` loop of `Session.get_result_availability` (session.py
lines 308-331): each referenced parameter must be a boolean set to true; a
build-group entry additionally requires the session state to be in the
build-complete set, and a run-group entry requires the state string to be
a substring of "ran" (the Python `not in State.RAN` on the str enum). -/
def checkEnablers (s : SessionModel) (name : String) :
    List String → Except PyErr (Bool × Option String)
  | [] => .ok (true, none)
  | entry :: rest =>
    match parseEnabler entry with
    | .error e => .error e
    | .ok (parameter_group, parameter_name) =>
      match s.get_parameter parameter_group parameter_name with
      | none => .error (.attributeError "NoneType object has no attribute value")
      | some parameter =>
        match parameter.value with
        | .prim (.bool b) =>
          if b = false then
            .ok (false, some (msgNotTrue name parameter.name))
          else if parameter_group == ParameterGroup.BUILD &&
              !buildEnablerStateOk s.state then
            .ok (false, some (msgNeedBuilt name s.state))
          else if parameter_group == ParameterGroup.RUN &&
              !pyStrContains State.RAN.pyValue s.state.pyValue then
            .ok (false, some (msgNeedRan name s.state))
          else
            checkEnablers s name rest
        | _ =>
          .ok (false, some (msgNonBool name parameter.name))

/-- Embedding of `Session.get_result_availability` (session.py lines
299-339). -/
def get_result_availability (s : SessionModel) (name : String) :
    Except PyErr (Bool × Option String) :=
  match lookupA s.results name with
  | none => .error (.keyError name)
  | some result =>
    let enabled_by :=
      match result with
      | .sysDefResult r => r.enabled_by
      | .rawPath _ => none
    match enabled_by with
    | some entries => checkEnablers s name entries
    | none =>
      if s.state = State.RAN then .ok (true, none)
      else .ok (false, some (msgNeedRan name s.state))

/-- One enabling reference passes, as Claim C7 words it: it names a
boolean parameter whose value is true; a build-group enabler finds the
state at least BUILT (the states BUILT, RUNNING, RAN, FAILED_RUN -
excluding a dangling BUILDING); a run-group enabler finds the state
exactly RAN. -/
def enablerPasses (s : SessionModel) (entry : String) : Bool :=
  match parseEnabler entry with
  | .ok (g, pname) =>
    match s.get_parameter g pname with
    | some p =>
      p.value == Value.prim (.bool true) &&
      !(g == ParameterGroup.BUILD && !buildEnablerStateOk s.state) &&
      !(g == ParameterGroup.RUN && !(s.state == State.RAN))
    | none => false
  | .error _ => false

/-- The availability condition of Claim C7: with no enabling references
the result is available exactly in state RAN; with enabling references it
is available exactly when every reference passes. -/
def claimResultAvailable (s : SessionModel) (r : SysDefResult) : Bool :=
  match r.enabled_by with
  | none => s.state == State.RAN
  | some entries => entries.all (enablerPasses s)

/-- On the str enum values, membership of a state string in "ran" is
equality with RAN. -/
theorem pyStrContains_ran (st : State) :
    pyStrContains State.RAN.pyValue st.pyValue = (st == State.RAN) := by
  revert st; decide

theorem checkEnablers_pass_step (s : SessionModel) (name entry : String)
    (rest : List String) (hpass : enablerPasses s entry = true) :
    checkEnablers s name (entry :: rest) = checkEnablers s name rest := by
  rcases hpe : parseEnabler entry with e | gp
  · simp [enablerPasses, hpe] at hpass
  · obtain ⟨g, pn⟩ := gp
    rcases hgp : s.get_parameter g pn with _ | p
    · simp [enablerPasses, hpe, hgp] at hpass
    · simp only [enablerPasses, hpe, hgp] at hpass
      rcases hb2 : (g == ParameterGroup.BUILD && !buildEnablerStateOk s.state) with _ | _
      · rcases hc2 : (g == ParameterGroup.RUN && !(s.state == State.RAN)) with _ | _
        · have hval : p.value = Value.prim (.bool true) := by
            simp only [hb2, hc2, Bool.not_false, Bool.and_true] at hpass
            exact beq_iff_eq.1 hpass
          simp [checkEnablers, hpe, hgp, hval, hb2, hc2, pyStrContains_ran]
        · exfalso; simp [hc2] at hpass
      · exfalso; simp [hb2] at hpass

theorem checkEnablers_all_pass (s : SessionModel) (name : String) (entries : List String)
    (hall : ∀ e ∈ entries, enablerPasses s e = true) :
    checkEnablers s name entries = .ok (true, none) := by
  induction entries with
  | nil => rfl
  | cons hd tl ih =>
    rw [checkEnablers_pass_step s name hd tl (hall hd (by simp))]
    exact ih (fun e he => hall e (by simp [he]))

theorem checkEnablers_fail_head (s : SessionModel) (name entry : String)
    (rest : List String) (g : ParameterGroup) (pn : String) (p : Parameter)
    (hpe : parseEnabler entry = .ok (g, pn)) (hgp : s.get_parameter g pn = some p)
    (hfail : enablerPasses s entry = false) :
    ∃ m, checkEnablers s name (entry :: rest) = .ok (false, some m) := by
  simp only [enablerPasses, hpe, hgp] at hfail
  cases hval : p.value with
  | prim v =>
    cases v with
    | str vs =>
      exact ⟨msgNonBool name p.name, by simp [checkEnablers, hpe, hgp, hval]⟩
    | int vi =>
      exact ⟨msgNonBool name p.name, by simp [checkEnablers, hpe, hgp, hval]⟩
    | float vq =>
      exact ⟨msgNonBool name p.name, by simp [checkEnablers, hpe, hgp, hval]⟩
    | bool vb =>
      cases vb with
      | false =>
        exact ⟨msgNotTrue name p.name, by simp [checkEnablers, hpe, hgp, hval]⟩
      | true =>
        simp only [hval] at hfail
        rcases hb2 : (g == ParameterGroup.BUILD && !buildEnablerStateOk s.state) with _ | _
        · rcases hc2 : (g == ParameterGroup.RUN && !(s.state == State.RAN)) with _ | _
          · exfalso; simp [hb2, hc2] at hfail
          · exact ⟨msgNeedRan name s.state,
              by simp [checkEnablers, hpe, hgp, hval, hb2, hc2, pyStrContains_ran]⟩
        · exact ⟨msgNeedBuilt name s.state,
            by simp [checkEnablers, hpe, hgp, hval, hb2]⟩
  | url u cred =>
    exact ⟨msgNonBool name p.name, by simp [checkEnablers, hpe, hgp, hval]⟩
  | cmplxObj c =>
    exact ⟨msgNonBool name p.name, by simp [checkEnablers, hpe, hgp, hval]⟩
  | null =>
    exact ⟨msgNonBool name p.name, by simp [checkEnablers, hpe, hgp, hval]⟩

theorem checkEnablers_some_fail (s : SessionModel) (name : String) (entries : List String)
    (hwf : ∀ e ∈ entries,
      ∃ g pn p, parseEnabler e = .ok (g, pn) ∧ s.get_parameter g pn = some p)
    (hfail : entries.all (enablerPasses s) = false) :
    ∃ m, checkEnablers s name entries = .ok (false, some m) := by
  induction entries with
  | nil => simp at hfail
  | cons hd tl ih =>
    rcases hpass : enablerPasses s hd with _ | _
    · obtain ⟨g, pn, p, hpe, hgp⟩ := hwf hd (by simp)
      exact checkEnablers_fail_head s name hd tl g pn p hpe hgp hpass
    · rw [checkEnablers_pass_step s name hd tl hpass]
      apply ih (fun e he => hwf e (by simp [he]))
      simpa [hpass] using hfail

theorem checkEnablers_append_pass (s : SessionModel) (name : String)
    (l1 rest : List String) (hall : ∀ e ∈ l1, enablerPasses s e = true) :
    checkEnablers s name (l1 ++ rest) = checkEnablers s name rest := by
  induction l1 with
  | nil => rfl
  | cons hd tl ih =>
    rw [List.cons_append, checkEnablers_pass_step s name hd (tl ++ rest) (hall hd (by simp))]
    exact ih (fun e he => hall e (by simp [he]))

theorem checkEnablers_nonbool_head (s : SessionModel) (name entry : String)
    (rest : List String) (g : ParameterGroup) (pn : String) (p : Parameter)
    (hpe : parseEnabler entry = .ok (g, pn)) (hgp : s.get_parameter g pn = some p)
    (hnb : ∀ b, p.value ≠ Value.prim (.bool b)) :
    checkEnablers s name (entry :: rest) = .ok (false, some (msgNonBool name p.name)) := by
  cases hval : p.value with
  | prim v =>
    cases v with
    | bool vb => exact absurd hval (hnb vb)
    | str vs => simp [checkEnablers, hpe, hgp, hval]
    | int vi => simp [checkEnablers, hpe, hgp, hval]
    | float vq => simp [checkEnablers, hpe, hgp, hval]
  | url u cred => simp [checkEnablers, hpe, hgp, hval]
  | cmplxObj c => simp [checkEnablers, hpe, hgp, hval]
  | null => simp [checkEnablers, hpe, hgp, hval]

/-- Claim C7: for every session and result definition whose enabling
references parse and resolve to parameters, the availability query returns
available exactly when the result has no enabling references and the state
is RAN, or every enabling reference names a boolean parameter set to true,
every build-group enabler finds the state at least BUILT (BUILT, RUNNING,
RAN or FAILED_RUN, excluding a dangling BUILDING) and every run-group
enabler finds the state exactly RAN; in every other case it returns
not-available together with a message; and when the first deviating
reference names a non-boolean parameter the message is the
definition-validity failure message. -/
theorem get_result_availability_characterization
    (s : SessionModel) (name : String) (r : SysDefResult)
    (hres : lookupA s.results name = some (.sysDefResult r))
    (hwf : ∀ l, r.enabled_by = some l → ∀ e ∈ l,
      ∃ g pn p, parseEnabler e = .ok (g, pn) ∧ s.get_parameter g pn = some p) :
    (get_result_availability s name = .ok (true, none) ↔
      claimResultAvailable s r = true) ∧
    (claimResultAvailable s r = false →
      ∃ m, get_result_availability s name = .ok (false, some m)) ∧
    (∀ l1 e l2 g pn p, r.enabled_by = some (l1 ++ e :: l2) →
      (∀ e1 ∈ l1, enablerPasses s e1 = true) →
      parseEnabler e = .ok (g, pn) → s.get_parameter g pn = some p →
      (∀ b, p.value ≠ Value.prim (.bool b)) →
      get_result_availability s name = .ok (false, some (msgNonBool name p.name))) := by
  have hgra : get_result_availability s name =
      (match r.enabled_by with
       | some entries => checkEnablers s name entries
       | none =>
         if s.state = State.RAN then .ok (true, none)
         else .ok (false, some (msgNeedRan name s.state))) := by
    simp [get_result_availability, hres]
  refine ⟨?_, ?_, ?_⟩
  · rw [hgra]
    cases heb : r.enabled_by with
    | none =>
      by_cases hr : s.state = State.RAN <;>
        simp [claimResultAvailable, heb, hr]
    | some entries =>
      simp only [claimResultAvailable, heb]
      constructor
      · intro hok
        rcases hall : entries.all (enablerPasses s) with _ | _
        · obtain ⟨m, hm⟩ := checkEnablers_some_fail s name entries (hwf entries heb) hall
          rw [hm] at hok
          cases hok
        · rfl
      · intro hall
        exact checkEnablers_all_pass s name entries
          (fun e he => by
            have := List.all_eq_true.1 hall e he
            simpa using this)
  · rw [hgra]
    cases heb : r.enabled_by with
    | none =>
      intro hfalse
      have hr : ¬ s.state = State.RAN := by
        intro hr
        simp [claimResultAvailable, heb, hr] at hfalse
      simp [hr]
    | some entries =>
      intro hfalse
      simp only [claimResultAvailable, heb] at hfalse
      exact checkEnablers_some_fail s name entries (hwf entries heb) hfalse
  · intro l1 e l2 g pn p heb hl1 hpe hgp hnb
    rw [hgra, heb]
    show checkEnablers s name (l1 ++ e :: l2) = _
    rw [checkEnablers_append_pass s name l1 (e :: l2) hl1]
    exact checkEnablers_nonbool_head s name e l2 g pn p hpe hgp hnb

/-- The session of the claim C7 witness: state RAN, a boolean build
parameter tracing set to true, a non-boolean run parameter fmt, and three
results - one enabled by tracing, one enabled by fmt, one without
enabling references. -/
def sessionC7 : SessionModel :=
  { session_id := "sid-c7", state := State.RAN, has_build := true,
    common_params := [],
    build_params := [{ name := "tracing", value := .prim (.bool true), overwritten := true,
                       default_value := .prim (.bool false) }],
    run_params := [{ name := "fmt", value := .prim (.str "vcd"), overwritten := false,
                     default_value := .prim (.str "vcd") }],
    results := [
      ("trace.vcd", .sysDefResult
        { type := "vcd", path := "out/trace.vcd",
          enabled_by := some ["#/build_parameters/tracing"] }),
      ("report.txt", .sysDefResult
        { type := "text", path := "out/report.txt",
          enabled_by := some ["#/run_parameters/fmt"] })] }

/-- Witness for claim C7: at the concrete session the tracing-enabled
result is available in state RAN, and the result enabled by the
non-boolean parameter fmt is reported with the definition-validity
message. -/
theorem get_result_availability_characterization_witness :
    (get_result_availability sessionC7 "trace.vcd" = .ok (true, none) ↔
      claimResultAvailable sessionC7
        { type := "vcd", path := "out/trace.vcd",
          enabled_by := some ["#/build_parameters/tracing"] } = true) ∧
    (get_result_availability sessionC7 "trace.vcd" = .ok (true, none)) ∧
    (get_result_availability sessionC7 "report.txt" =
      .ok (false, some (msgNonBool "report.txt" "fmt"))) := by
  have h1 := get_result_availability_characterization sessionC7 "trace.vcd"
    { type := "vcd", path := "out/trace.vcd",
      enabled_by := some ["#/build_parameters/tracing"] }
    (by decide)
    (by
      intro l hl e he
      rw [Option.some_inj] at hl
      subst hl
      simp only [List.mem_singleton] at he
      subst he
      exact ⟨ParameterGroup.BUILD, "tracing",
        { name := "tracing", value := .prim (.bool true), overwritten := true,
          default_value := .prim (.bool false) }, by decide, by decide⟩)
  have h2 := get_result_availability_characterization sessionC7 "report.txt"
    { type := "text", path := "out/report.txt",
      enabled_by := some ["#/run_parameters/fmt"] }
    (by decide)
    (by
      intro l hl e he
      rw [Option.some_inj] at hl
      subst hl
      simp only [List.mem_singleton] at he
      subst he
      exact ⟨ParameterGroup.RUN, "fmt",
        { name := "fmt", value := .prim (.str "vcd"), overwritten := false,
          default_value := .prim (.str "vcd") }, by decide, by decide⟩)
  refine ⟨h1.1, ?_, ?_⟩
  · rw [h1.1]
    decide
  · have := h2.2.2 [] "#/run_parameters/fmt" [] ParameterGroup.RUN "fmt"
      { name := "fmt", value := .prim (.str "vcd"), overwritten := false,
        default_value := .prim (.str "vcd") }
      (by decide) (by intro e1 he1; cases he1) (by decide) (by decide)
      (by intro b hb; cases hb)
    simpa using this

/-! ## Document dataformat tags (dataformats.py, system.py) -/

/-- Expected format identifier of definition documents (dataformats.py
line 23). -/
def SYSDEF_DATAFORMAT_IDENTIFIER : String := "sysdef:0.4"

/-- Expected format identifier of configuration documents (dataformats.py
line 22). -/
def SYSCFG_DATAFORMAT_IDENTIFIER : String := "syscfg:0.3"

/-- Python `str.startswith`. -/
def pyStartsWith (s pre : String) : Bool := pre.toList.isPrefixOf s.toList

/-- Embedding of the `SysDef` pydantic model (dataformats.py lines
109-125): the dataformat field is `Optional[str]` defaulting to the
recognized identifier, with no constraint on its value. -/
structure SysDefModel where
  dataformat : Option String := some SYSDEF_DATAFORMAT_IDENTIFIER
  name : String
  version : String
  docker_image : String
  build_command : Option String := none
  run_command : String
  delete_command : Option String := none
  common_parameters : Option (List (String × DefEntry)) := none
  build_parameters : Option (List (String × DefEntry)) := none
  run_parameters : Option (List (String × DefEntry)) := none
  results : Option (List (String × SysDefResult)) := none
deriving DecidableEq, Repr

/-- The indexable group access `my_sysdef[parameter_group]`
(dataformats.py lines 145-147). -/
def SysDefModel.group (d : SysDefModel) : ParameterGroup → Option (List (String × DefEntry))
  | .COMMON => d.common_parameters
  | .BUILD => d.build_parameters
  | .RUN => d.run_parameters

/-- One `enabled_by` entry check of `SysDef.check_result_enabled_by`
(dataformats.py lines 132-142), over the group lookup function of the
document. -/
def checkEnablerEntry (groups : ParameterGroup → Option (List (String × DefEntry)))
    (enabler : String) : Except PyErr Unit :=
  if pyStartsWith enabler "#/" = false then
    .error (.valueError "enabled_by must start with a JSON pointer")
  else
    match (pySplit enabler '/').get? 1 with
    | none => .error (.indexError "list index out of range")
    | some gstr =>
      match ParameterGroup.fromPyValue? gstr with
      | none => .error (.valueError "is not a valid ParameterGroup")
      | some g =>
        match (pySplit enabler '/').get? 2 with
        | none => .error (.indexError "list index out of range")
        | some pname =>
          match groups g with
          | none => .error (.typeError "argument of type NoneType is not iterable")
          | some entries =>
            match lookupA entries pname with
            | none => .error (.valueError "Enabling parameter name does not exist")
            | some (.prim (.bool _)) => .ok ()
            | some _ => .error (.valueError "Enabling parameter must be of type bool")

/-- The inner loop of `check_result_enabled_by` over the
`enabled_by` list. -/
def checkEnablerList (groups : ParameterGroup → Option (List (String × DefEntry))) :
    List String → Except PyErr Unit
  | [] => .ok ()
  | e :: rest =>
    match checkEnablerEntry groups e with
    | .error err => .error err
    | .ok _ => checkEnablerList groups rest

/-- The outer loop of `check_result_enabled_by` over the result values. -/
def checkResultsList (groups : ParameterGroup → Option (List (String × DefEntry))) :
    List (String × SysDefResult) → Except PyErr Unit
  | [] => .ok ()
  | (_, r) :: rest =>
    match (match r.enabled_by with
           | some l => checkEnablerList groups l
           | none => .ok ()) with
    | .error err => .error err
    | .ok _ => checkResultsList groups rest

/-- Embedding of the model validator `SysDef.check_result_enabled_by`
(dataformats.py lines 127-143).  The Python code iterates
`self.results.values()` unconditionally, so a document without results
raises AttributeError. -/
def check_result_enabled_by (d : SysDefModel) : Except PyErr SysDefModel :=
  match d.results with
  | none => .error (.attributeError "NoneType object has no attribute values")
  | some results =>
    match checkResultsList d.group results with
    | .error err => .error err
    | .ok _ => .ok d

/-- Validation of the complex parameters of one group during field
parsing: each nested `SysDefCmplxParameter` runs its own
`check_default_value` validator while pydantic parses the field. -/
def checkGroupEntries : List (String × DefEntry) → Except PyErr Unit
  | [] => .ok ()
  | (_, DefEntry.cmplx c) :: rest =>
    match check_default_value c with
    | .error err => .error err
    | .ok _ => checkGroupEntries rest
  | _ :: rest => checkGroupEntries rest

/-- Group-field validation, handling an absent group. -/
def checkGroupField : Option (List (String × DefEntry)) → Except PyErr Unit
  | some l => checkGroupEntries l
  | none => .ok ()

/-- Full pydantic validation of a definition document: the nested complex
parameters are validated while the fields parse, then the model validator
`check_result_enabled_by` runs.  No code path examines the `dataformat`
field. -/
def validateSysDef (d : SysDefModel) : Except PyErr SysDefModel :=
  match checkGroupField d.common_parameters with
  | .error e => .error e
  | .ok _ =>
    match checkGroupField d.build_parameters with
    | .error e => .error e
    | .ok _ =>
      match checkGroupField d.run_parameters with
      | .error e => .error e
      | .ok _ => check_result_enabled_by d

/-- Embedding of the `SysCfg` pydantic model (dataformats.py lines
166-180): dataformat is `Optional[str]` with the recognized identifier as
default and no constraint. -/
structure SysCfgModel where
  dataformat : Option String := some SYSCFG_DATAFORMAT_IDENTIFIER
  system_name : String
  system_version : String
  common_parameters : Option (List (String × Value)) := none
  build_parameters : Option (List (String × Value)) := none
  run_parameters : Option (List (String × Value)) := none
deriving DecidableEq, Repr

/-- Full pydantic validation of a configuration document: `SysCfg`
declares no field or model validator at all, so every well-typed document
is accepted. -/
def validateSysCfg (d : SysCfgModel) : Except PyErr SysCfgModel := .ok d

/-- The `dataformat` field of `SysRef` (system.py line 49):
`typing.Literal` makes pydantic reject every other string; a missing
field takes the default. -/
def sysRefDataformatCheck : Option String → Except PyErr String
  | none => .ok "sysref:1.0"
  | some v =>
    if v = "sysref:1.0" then .ok v
    else .error (.valueError "Input should be sysref 1.0")

/-- Claim C9 counterexample: a definition document carrying the
unrecognized tag sysdef:9.9 passes full SysDef validation, and a
configuration document carrying syscfg:9.9 passes SysCfg validation -
neither is rejected, contradicting the claim that unrecognized tags fail
validation. -/
theorem dataformat_unrecognized_tag_accepted_counterexample :
    validateSysDef
      { dataformat := some "sysdef:9.9", name := "demo", version := "1.0",
        docker_image := "img", run_command := "./run",
        results := some [("out.txt", { type := "text", path := "out.txt" })] } =
      .ok { dataformat := some "sysdef:9.9", name := "demo", version := "1.0",
            docker_image := "img", run_command := "./run",
            results := some [("out.txt", { type := "text", path := "out.txt" })] } ∧
    some "sysdef:9.9" ≠ some SYSDEF_DATAFORMAT_IDENTIFIER ∧
    validateSysCfg
      { dataformat := some "syscfg:9.9", system_name := "demo", system_version := "1.0" } =
      .ok { dataformat := some "syscfg:9.9", system_name := "demo",
            system_version := "1.0" } ∧
    some "syscfg:9.9" ≠ some SYSCFG_DATAFORMAT_IDENTIFIER := by
  refine ⟨rfl, by decide, rfl, by decide⟩

theorem checkResults_match_map (G : ParameterGroup → Option (List (String × DefEntry)))
    (rs : List (String × SysDefResult)) (A B : SysDefModel) :
    (match checkResultsList G rs with
     | .error e => .error e
     | .ok _ => (.ok A : Except PyErr SysDefModel)) =
    Except.map (fun _ => A)
      (match checkResultsList G rs with
       | .error e => .error e
       | .ok _ => (.ok B : Except PyErr SysDefModel)) := by
  cases checkResultsList G rs <;> rfl

/-- Claim C9 (amended): SysDef and SysCfg validation never examines the
dataformat tag - replacing the tag by an arbitrary string does not change
the validation outcome, so documents with unrecognized tags are accepted;
only the system-reference format (SysRef) carries a checked Literal tag,
accepted exactly when it is sysref:1.0. -/
theorem dataformat_tag_not_validated :
    (∀ (d : SysDefModel) (t : Option String),
      validateSysDef { d with dataformat := t } =
        (validateSysDef d).map (fun _ => { d with dataformat := t })) ∧
    (∀ (c : SysCfgModel) (t : Option String),
      validateSysCfg { c with dataformat := t } = .ok { c with dataformat := t }) ∧
    (∀ v : String, v ≠ "sysref:1.0" →
      sysRefDataformatCheck (some v) = .error (.valueError "Input should be sysref 1.0")) := by
  refine ⟨?_, ?_, ?_⟩
  · intro d t
    obtain ⟨df, nm, ver, img, bc, rc, dc, cp, bp, rp, res⟩ := d
    have hg : SysDefModel.group
        { dataformat := t, name := nm, version := ver, docker_image := img,
          build_command := bc, run_command := rc, delete_command := dc,
          common_parameters := cp, build_parameters := bp, run_parameters := rp,
          results := res } =
        SysDefModel.group
        { dataformat := df, name := nm, version := ver, docker_image := img,
          build_command := bc, run_command := rc, delete_command := dc,
          common_parameters := cp, build_parameters := bp, run_parameters := rp,
          results := res } := by
      funext g; cases g <;> rfl
    simp only [validateSysDef, check_result_enabled_by, hg]
    cases h1 : checkGroupField cp with
    | error e => rfl
    | ok u1 =>
      cases h2 : checkGroupField bp with
      | error e => rfl
      | ok u2 =>
        cases h3 : checkGroupField rp with
        | error e => rfl
        | ok u3 =>
          cases res with
          | none => rfl
          | some rs => exact checkResults_match_map _ rs _ _
  · intro c t
    rfl
  · intro v hv
    simp [sysRefDataformatCheck, hv]

/-- Witness for the amended claim C9: a system-reference document with the
tag sysref:2.0 is rejected, while SysDef validation of a concrete document
is unaffected by replacing its tag. -/
theorem dataformat_tag_not_validated_witness :
    sysRefDataformatCheck (some "sysref:2.0") =
      .error (.valueError "Input should be sysref 1.0") ∧
    validateSysDef
      { dataformat := some "x", name := "demo", version := "1.0",
        docker_image := "img", run_command := "./run", results := some [] } =
      (validateSysDef
        { dataformat := some SYSDEF_DATAFORMAT_IDENTIFIER, name := "demo", version := "1.0",
          docker_image := "img", run_command := "./run", results := some [] }).map
        (fun _ =>
          { dataformat := some "x", name := "demo", version := "1.0",
            docker_image := "img", run_command := "./run", results := some [] }) := by
  constructor
  · exact dataformat_tag_not_validated.2.2 "sysref:2.0" (by decide)
  · exact dataformat_tag_not_validated.1
      { dataformat := some SYSDEF_DATAFORMAT_IDENTIFIER, name := "demo", version := "1.0",
        docker_image := "img", run_command := "./run", results := some [] } (some "x")

end Sunrise
